import Mathlib

/-!
Shallow embedding of the Recurring Feeding Scheduler & Dispatch Engine of
`src/pew.py` (a Streamlit smart-pet-feeder control panel).

Modelling conventions:

* An instant is a `Nat` counting whole seconds since an epoch whose day 0 is a
  Thursday (as 1970-01-01 is).  `datetime.now()` at second precision is thus a
  single `Nat`; `strftime('%A')` becomes `weekdayOf`, `now.replace(hour=h,
  minute=m, second=0, microsecond=0)` keeps the calendar date and sets the
  second-of-day to `h*3600 + m*60`.
* All data is scoped to one owner (`user_id` is a fixed ambient parameter in
  the source functions and is dropped from the records).
* The schedule row's `schedule_time` string "HH:MM" is embedded as the parsed
  pair of fields `hour`, `minute` (the source parses it with
  `map(int, schedule_time.split(':'))`).
* The `feeding_history` table is a `List Event`, most recent entry first
  (the source always queries it ordered by `fed_at` descending); an insert
  prepends.  `get_feeding_history(user_id, limit)` is `List.take limit`.
* `dispense_food_api` performs an unreliable network call returning a `Bool`;
  it is embedded as an oracle `Nat → Bool` giving the outcome of the k-th
  actuator call made during the tick.
-/

namespace PetFeeder

/-- Weekday names as produced by `strftime('%A')`, indexed so that absolute
day 0 of the model's epoch is a Thursday. -/
def dayNames : List String :=
  ["Thursday", "Friday", "Saturday", "Sunday", "Monday", "Tuesday", "Wednesday"]

/-- Seconds elapsed since the instant's local midnight. -/
def secOfDay (t : Nat) : Nat := t % 86400

/-- Calendar-date index of an instant (whole days since the epoch). -/
def dateOf (t : Nat) : Nat := t / 86400

/-- Weekday name of an instant: `now.strftime('%A')` in the source. -/
def weekdayOf (t : Nat) : String := dayNames.getD (dateOf t % 7) ""

/-- A row of the `feeding_schedules` table as read by `get_user_schedules`
(only enabled rows are returned, so `enabled` is not carried). -/
structure Schedule where
  id : Nat
  hour : Nat
  minute : Nat
  portion : Rat
  days : List String
deriving Repr, DecidableEq

/-- A row of the `feeding_history` table as written by `log_feeding`. -/
structure Event where
  portion : Rat
  feed_type : String
  schedule_id : Option Nat
  fed_at : Nat
deriving Repr, DecidableEq

/-- Seconds after midnight of the schedule's nominal time: the second-of-day
of `schedule_dt = now.replace(hour=schedule_hour, minute=schedule_min,
second=0, microsecond=0)`. -/
def time_of_day (s : Schedule) : Nat := s.hour * 3600 + s.minute * 60

/-- The due check of `check_and_execute_schedules` (src/pew.py lines 153-161):
`current_day in schedule_days` and
`abs((now - schedule_dt).total_seconds()) < 60`.  Since `schedule_dt` shares
`now`'s calendar date, the difference is the signed gap between `now`'s
second-of-day and the schedule's `time_of_day`. -/
def is_due (s : Schedule) (now : Nat) : Bool :=
  s.days.contains (weekdayOf now) &&
    decide (((secOfDay now : Int) - (time_of_day s : Int)).natAbs < 60)

/-- Embedding of `get_feeding_history(user_id, limit)` (src/pew.py lines
104-111): the `limit` most recent history entries, most recent first. -/
def get_feeding_history (history : List Event) (limit : Nat) : List Event :=
  history.take limit

/-- Embedding of `log_feeding` (src/pew.py lines 113-126): inserts one row
into `feeding_history` with `fed_at = now`. -/
def log_feeding (portion : Rat) (feed_type : String) (schedule_id : Option Nat)
    (now : Nat) (history : List Event) : List Event :=
  { portion := portion, feed_type := feed_type, schedule_id := schedule_id,
    fed_at := now } :: history

/-- The duplicate-suppression check of `check_and_execute_schedules`
(src/pew.py lines 162-170): scans `get_feeding_history(user_id, limit=10)`
and sets `already_dispensed` if some entry has
`(now - entry_time).total_seconds() < 120` (signed, no `abs`) and
`entry.get('schedule_id') == schedule['id']`. -/
def already_dispensed (s : Schedule) (now : Nat) (history : List Event) : Bool :=
  (get_feeding_history history 10).any fun entry =>
    decide ((now : Int) - (entry.fed_at : Int) < 120) &&
      (entry.schedule_id == some s.id)

/-- Embedding of `check_and_execute_schedules` (src/pew.py lines 141-177).
For each schedule in order: if due and not already dispensed, call
`dispense_food_api(schedule['portion'])`; on success, `log_feeding` the event
and `return True` immediately; on failure, continue with the remaining
schedules (nothing is logged); if no schedule dispenses, return `False`.
Returns `(returned value, resulting history, number of actuator calls made)`;
`oracle k` is the outcome of the tick's k-th actuator call. -/
def check_and_execute_schedules (now : Nat) (history : List Event) :
    List Schedule → (Nat → Bool) → Bool × List Event × Nat
  | [], _ => (false, history, 0)
  | s :: rest, oracle =>
    if is_due s now && !(already_dispensed s now history) then
      if oracle 0 then
        (true, log_feeding s.portion "Scheduled" (some s.id) now history, 1)
      else
        let r := check_and_execute_schedules now history rest fun i => oracle (i + 1)
        (r.1, r.2.1, r.2.2 + 1)
    else
      check_and_execute_schedules now history rest oracle

/-- Modelled from the spec: the public operation `dispatch_manual(owner_id,
portion)` of §4.4 has no counterpart in src/pew.py (the source only provides
the `log_feeding` append helper, embedded above).  Per the spec it bypasses
the Matcher and the Dedup Guard entirely, calls the Actuator Client directly,
and logs a Dispatch Event with `trigger_kind = manual` after the call
returns.  Returns `(call outcome, resulting history, actuator calls made)`. -/
def dispatch_manual (portion : Rat) (now : Nat) (history : List Event)
    (oracle : Nat → Bool) : Bool × List Event × Nat :=
  (oracle 0, log_feeding portion "Manual" none now history, 1)

/-- Iterates `dispatch_manual` n times, threading the history through. -/
def dispatch_manualN (portion : Rat) (now : Nat) (oracle : Nat → Bool) :
    Nat → List Event → List Event
  | 0, history => history
  | n + 1, history =>
    dispatch_manualN portion now oracle n
      (dispatch_manual portion now history oracle).2.1

/-! Helper lemmas shared by the claim theorems. -/

/-- Two instants on the same calendar date have the same weekday name. -/
theorem weekdayOf_congr {t1 t2 : Nat} (h : dateOf t1 = dateOf t2) :
    weekdayOf t1 = weekdayOf t2 := by
  unfold weekdayOf
  rw [h]

/-- An instant within a day has that day's weekday name. -/
theorem weekdayOf_add {d x : Nat} (hx : x < 86400) :
    weekdayOf (d * 86400 + x) = dayNames.getD (d % 7) "" := by
  unfold weekdayOf dateOf
  rw [show (d * 86400 + x) / 86400 = d from by omega]

/-- Evaluates `is_due` at the instant `x` seconds into day `d`. -/
theorem is_due_eval (s : Schedule) (d x : Nat) (hx : x < 86400) :
    is_due s (d * 86400 + x)
      = (s.days.contains (dayNames.getD (d % 7) "") &&
          decide (((x : Int) - (time_of_day s : Int)).natAbs < 60)) := by
  unfold is_due secOfDay
  rw [weekdayOf_add hx, show (d * 86400 + x) % 86400 = x from by omega]

/-- Sufficient condition for the due check. -/
theorem is_due_true {s : Schedule} {t : Nat}
    (hday : s.days.contains (weekdayOf t) = true)
    (hw : ((secOfDay t : Int) - (time_of_day s : Int)).natAbs < 60) :
    is_due s t = true := by
  unfold is_due
  rw [hday]
  simp [hw]

/-- Two instants in the same schedule's match window on the same calendar
date are less than 120 seconds apart. -/
theorem tick_gap_lt_120 {s : Schedule} {t1 t2 : Nat}
    (hdate : dateOf t1 = dateOf t2)
    (hw1 : ((secOfDay t1 : Int) - (time_of_day s : Int)).natAbs < 60)
    (hw2 : ((secOfDay t2 : Int) - (time_of_day s : Int)).natAbs < 60) :
    (t2 : Int) - (t1 : Int) < 120 := by
  simp only [secOfDay, dateOf] at hdate hw1 hw2
  omega

/-- A freshly logged event for the schedule suppresses any evaluation less
than 120 seconds later. -/
theorem already_dispensed_cons_self {s : Schedule} {t1 t2 : Nat}
    {h : List Event}
    (hlt : (t2 : Int) - (t1 : Int) < 120) :
    already_dispensed s t2
      (log_feeding s.portion "Scheduled" (some s.id) t1 h) = true := by
  simp [already_dispensed, get_feeding_history, log_feeding, hlt]

/-- Non-suppression is monotone in time: if nothing in the history suppresses
the schedule at `t1`, nothing suppresses it at any later `t2` either. -/
theorem already_dispensed_mono {s : Schedule} {t1 t2 : Nat} {h : List Event}
    (hle : t1 ≤ t2)
    (hnd : already_dispensed s t1 h = false) :
    already_dispensed s t2 h = false := by
  simp only [already_dispensed, get_feeding_history, List.any_eq_false,
    Bool.and_eq_true, decide_eq_true_eq, beq_iff_eq, not_and] at hnd ⊢
  intro e he hgap
  exact hnd e he (by omega)

/-- A due, unsuppressed schedule at the head of the list whose actuator call
succeeds dispatches, logs, and ends the tick with exactly one call. -/
theorem tick_dispatch {s : Schedule} {rest : List Schedule} {t : Nat}
    {h : List Event} {o : Nat → Bool}
    (hdue : is_due s t = true) (hnd : already_dispensed s t h = false)
    (hsucc : o 0 = true) :
    check_and_execute_schedules t h (s :: rest) o
      = (true, log_feeding s.portion "Scheduled" (some s.id) t h, 1) := by
  simp [check_and_execute_schedules, hdue, hnd, hsucc]

/-- C1: for every schedule and every pair of evaluation ticks `t1`, `t2` in
the same occurrence's match window (same calendar date, both within the
window), if the first tick dispatches and its actuator call succeeds, then —
with the event log faithfully updated by that tick's append — the second
tick observes the logged event, performs no actuator call and appends
nothing: exactly one succeeded dispatch event exists for the occurrence. -/
theorem C1_run_tick_idempotent (s : Schedule) (t1 t2 : Nat) (h : List Event)
    (o1 o2 : Nat → Bool)
    (hdate : dateOf t1 = dateOf t2)
    (hw1 : ((secOfDay t1 : Int) - (time_of_day s : Int)).natAbs < 60)
    (hw2 : ((secOfDay t2 : Int) - (time_of_day s : Int)).natAbs < 60)
    (hday : s.days.contains (weekdayOf t1) = true)
    (hnd : already_dispensed s t1 h = false)
    (hsucc : o1 0 = true) :
    check_and_execute_schedules t1 h [s] o1
      = (true, log_feeding s.portion "Scheduled" (some s.id) t1 h, 1) ∧
    check_and_execute_schedules t2
        (log_feeding s.portion "Scheduled" (some s.id) t1 h) [s] o2
      = (false, log_feeding s.portion "Scheduled" (some s.id) t1 h, 0) := by
  refine ⟨tick_dispatch (is_due_true hday hw1) hnd hsucc, ?_⟩
  have hsup : already_dispensed s t2
      (log_feeding s.portion "Scheduled" (some s.id) t1 h) = true :=
    already_dispensed_cons_self (tick_gap_lt_120 hdate hw1 hw2)
  simp [check_and_execute_schedules, hsup]

/-- Witness for C1 at the spec's own scenario: schedule 08:00 Monday, first
tick at Monday 08:00:15 on an empty log, second tick at 08:00:45. -/
theorem C1_witness :
    check_and_execute_schedules 374415 [] [⟨1, 8, 0, 1, ["Monday"]⟩]
        (fun _ => true)
      = (true, log_feeding 1 "Scheduled" (some 1) 374415 [], 1) ∧
    check_and_execute_schedules 374445
        (log_feeding 1 "Scheduled" (some 1) 374415 [])
        [⟨1, 8, 0, 1, ["Monday"]⟩] (fun _ => true)
      = (false, log_feeding 1 "Scheduled" (some 1) 374415 [], 0) :=
  C1_run_tick_idempotent ⟨1, 8, 0, 1, ["Monday"]⟩ 374415 374445 []
    (fun _ => true) (fun _ => true) (by decide) (by decide) (by decide)
    (by decide) (by decide) rfl

/-- C2 counterexample: the claim says the due check is false at
`time_of_day - 1s` on a matching weekday, but the source compares
`abs((now - schedule_dt).total_seconds()) < 60`, a symmetric window, so for
the schedule 08:00 Monday the due check is TRUE one second before 08:00 on a
Monday (day 4 of the model's epoch, one second before second 28800). -/
theorem C2_counterexample :
    is_due ⟨1, 8, 0, 1, ["Monday"]⟩ (4 * 86400 + (8 * 3600 - 1)) = true := by
  decide

/-- C2 amended: on a matching weekday, for a schedule whose window lies
strictly inside the day, the due check is true exactly on the SYMMETRIC open
interval `(time_of_day - 60s, time_of_day + 60s)`: false at
`time_of_day - 60s`, true at `time_of_day - 1s`, `time_of_day` and
`time_of_day + 59s`, false at `time_of_day + 60s`. -/
theorem C2_symmetric_window (s : Schedule) (d : Nat)
    (hday : s.days.contains (dayNames.getD (d % 7) "") = true)
    (hlo : 60 ≤ time_of_day s)
    (hhi : time_of_day s + 60 < 86400) :
    is_due s (d * 86400 + (time_of_day s - 60)) = false ∧
    is_due s (d * 86400 + (time_of_day s - 1)) = true ∧
    is_due s (d * 86400 + time_of_day s) = true ∧
    is_due s (d * 86400 + (time_of_day s + 59)) = true ∧
    is_due s (d * 86400 + (time_of_day s + 60)) = false := by
  refine ⟨?_, ?_, ?_, ?_, ?_⟩ <;>
    rw [is_due_eval _ _ _ (by omega)] <;> rw [hday] <;> simp <;> omega

/-- Witness for C2 amended at the schedule 08:00 Monday, day 4. -/
theorem C2_symmetric_window_witness :
    is_due ⟨1, 8, 0, 1, ["Monday"]⟩ (4 * 86400 + (28800 - 60)) = false ∧
    is_due ⟨1, 8, 0, 1, ["Monday"]⟩ (4 * 86400 + (28800 - 1)) = true ∧
    is_due ⟨1, 8, 0, 1, ["Monday"]⟩ (4 * 86400 + 28800) = true ∧
    is_due ⟨1, 8, 0, 1, ["Monday"]⟩ (4 * 86400 + (28800 + 59)) = true ∧
    is_due ⟨1, 8, 0, 1, ["Monday"]⟩ (4 * 86400 + (28800 + 60)) = false :=
  C2_symmetric_window ⟨1, 8, 0, 1, ["Monday"]⟩ 4 (by decide) (by decide)
    (by decide)

/-- C3 counterexample: the claim says a dispatch event is appended once per
dispatch attempt whether the actuator call succeeded or failed, but the
source logs only inside `if dispense_food_api(...)`: for the due schedule
08:00 Monday evaluated at Monday 08:00:15 with a failing actuator, the tick
makes one actuator call yet appends nothing to the history. -/
theorem C3_counterexample :
    check_and_execute_schedules 374415 [] [⟨1, 8, 0, 1, ["Monday"]⟩]
        (fun _ => false)
      = (false, [], 1) := by
  decide

/-- C3 amended: for a schedule that reaches the dispatching state in a tick,
exactly one event-log append is performed when the actuator call succeeds,
and NO append is performed when it fails; either way exactly one actuator
call is made for that schedule. -/
theorem C3_append_iff_success (s : Schedule) (t : Nat) (h : List Event)
    (o : Nat → Bool)
    (hdue : is_due s t = true) (hnd : already_dispensed s t h = false) :
    check_and_execute_schedules t h [s] o
      = if o 0 then
          (true, log_feeding s.portion "Scheduled" (some s.id) t h, 1)
        else (false, h, 1) := by
  by_cases ho : o 0 = true
  · rw [if_pos ho]
    exact tick_dispatch hdue hnd ho
  · have ho2 : o 0 = false := by simpa using ho
    rw [if_neg ho]
    simp [check_and_execute_schedules, hdue, hnd, ho2]

/-- Witness for C3 amended: failing actuator at the spec scenario instant. -/
theorem C3_append_iff_success_witness :
    check_and_execute_schedules 374415 [] [⟨1, 8, 0, 1, ["Monday"]⟩]
        (fun _ => false)
      = if (fun (_ : Nat) => false) 0 then
          (true, log_feeding 1 "Scheduled" (some 1) 374415 [], 1)
        else (false, [], 1) :=
  C3_append_iff_success ⟨1, 8, 0, 1, ["Monday"]⟩ 374415 [] (fun _ => false)
    (by decide) (by decide)

/-- C4 counterexample: the claim says the already-fired check is true iff
some logged success for the schedule has the occurrence's calendar date, but
the source compares `(now - entry_time).total_seconds() < 120` instead.
First conjunct: a success for schedule 1 at Monday 08:00:00 does NOT
suppress the same schedule at Monday 08:03:20 of the same calendar date
(gap 200 s).  Second conjunct: a success at 23:59:50 of day 4 DOES suppress
at 00:00:10 of day 5, a different calendar date (gap 20 s). -/
theorem C4_counterexample :
    (dateOf 374400 = dateOf 374600 ∧
      already_dispensed ⟨1, 8, 0, 1, ["Monday"]⟩ 374600
        [⟨1, "Scheduled", some 1, 374400⟩] = false) ∧
    (dateOf 431990 ≠ dateOf 432010 ∧
      already_dispensed ⟨1, 0, 0, 1, ["Tuesday"]⟩ 432010
        [⟨1, "Scheduled", some 1, 431990⟩] = true) := by
  decide

/-- C4 amended: the already-fired check returns true iff one of the 10 most
recent history entries has `schedule_id` equal to the candidate schedule's
id and `fed_at` less than 120 seconds before `now` (entries with a future
`fed_at` also qualify); the entries' calendar dates play no role. -/
theorem C4_already_dispensed_iff (s : Schedule) (now : Nat)
    (h : List Event) :
    already_dispensed s now h = true ↔
      ∃ e ∈ get_feeding_history h 10,
        (now : Int) - (e.fed_at : Int) < 120 ∧ e.schedule_id = some s.id := by
  simp [already_dispensed, List.any_eq_true]

/-- C5: within one occurrence's match window (same calendar date, both ticks
in the window, `t1 ≤ t2`), if the first tick's actuator call fails, the log
is unchanged and the second tick still attempts the dispatch (exactly one
actuator call); if instead the first tick's call succeeds, the second tick,
run on the history the first tick produced, makes no actuator call. -/
theorem C5_failure_retries_success_suppresses (s : Schedule) (t1 t2 : Nat)
    (h : List Event) (o1 o2 : Nat → Bool)
    (hle : t1 ≤ t2)
    (hdate : dateOf t1 = dateOf t2)
    (hw1 : ((secOfDay t1 : Int) - (time_of_day s : Int)).natAbs < 60)
    (hw2 : ((secOfDay t2 : Int) - (time_of_day s : Int)).natAbs < 60)
    (hday : s.days.contains (weekdayOf t1) = true)
    (hnd : already_dispensed s t1 h = false) :
    (o1 0 = false →
      check_and_execute_schedules t1 h [s] o1 = (false, h, 1) ∧
      (check_and_execute_schedules t2 h [s] o2).2.2 = 1) ∧
    (o1 0 = true →
      (check_and_execute_schedules t2
          (check_and_execute_schedules t1 h [s] o1).2.1 [s] o2).2.2 = 0) := by
  have hday2 : s.days.contains (weekdayOf t2) = true := by
    rw [← weekdayOf_congr hdate]
    exact hday
  have hdue1 : is_due s t1 = true := is_due_true hday hw1
  have hdue2 : is_due s t2 = true := is_due_true hday2 hw2
  have hnd2 : already_dispensed s t2 h = false := already_dispensed_mono hle hnd
  constructor
  · intro hfail
    refine ⟨by simp [check_and_execute_schedules, hdue1, hnd, hfail], ?_⟩
    by_cases ho2 : o2 0 = true
    · rw [tick_dispatch hdue2 hnd2 ho2]
    · have ho2f : o2 0 = false := by simpa using ho2
      simp [check_and_execute_schedules, hdue2, hnd2, ho2f]
  · intro hsucc
    rw [tick_dispatch hdue1 hnd hsucc]
    have hsup : already_dispensed s t2
        (log_feeding s.portion "Scheduled" (some s.id) t1 h) = true :=
      already_dispensed_cons_self (tick_gap_lt_120 hdate hw1 hw2)
    simp [check_and_execute_schedules, hsup]

/-- Witness for C5: failing first tick at Monday 08:00:15, retry at
08:00:45. -/
theorem C5_witness :
    check_and_execute_schedules 374415 [] [⟨1, 8, 0, 1, ["Monday"]⟩]
        (fun _ => false)
      = (false, [], 1) ∧
    (check_and_execute_schedules 374445 [] [⟨1, 8, 0, 1, ["Monday"]⟩]
        (fun _ => true)).2.2 = 1 :=
  (C5_failure_retries_success_suppresses ⟨1, 8, 0, 1, ["Monday"]⟩
      374415 374445 [] (fun _ => false) (fun _ => true) (by decide)
      (by decide) (by decide) (by decide) (by decide) (by decide)).1 rfl

/-- C6: a schedule whose day set does not contain the instant's weekday is
never due, whatever the time of day; in particular a schedule with an empty
day set is never due. -/
theorem C6_weekday_not_in_days :
    (∀ (s : Schedule) (t : Nat),
        s.days.contains (weekdayOf t) = false → is_due s t = false) ∧
    (∀ (s : Schedule) (t : Nat), s.days = [] → is_due s t = false) := by
  constructor
  · intro s t hnot
    unfold is_due
    rw [hnot]
    simp
  · intro s t hempty
    unfold is_due
    rw [hempty]
    simp

/-- Witness for C6: a Tuesday-only schedule is not due on a Monday, even at
its exact nominal second, and an empty-day schedule is not due then either. -/
theorem C6_witness :
    is_due ⟨1, 8, 0, 1, ["Tuesday"]⟩ 374400 = false ∧
    is_due ⟨2, 8, 0, 1, []⟩ 374400 = false :=
  ⟨C6_weekday_not_in_days.1 _ _ (by decide),
   C6_weekday_not_in_days.2 ⟨2, 8, 0, 1, []⟩ 374400 rfl⟩

/-- C7: when the head schedule is due, not suppressed, and its actuator call
fails, the tick does not abort: the outcome is exactly the evaluation of the
remaining schedules (with the actuator-call oracle shifted past the failed
call), plus the one failed call. -/
theorem C7_failure_continues_tick (s : Schedule) (rest : List Schedule)
    (t : Nat) (h : List Event) (o : Nat → Bool)
    (hdue : is_due s t = true) (hnd : already_dispensed s t h = false)
    (hfail : o 0 = false) :
    check_and_execute_schedules t h (s :: rest) o
      = ((check_and_execute_schedules t h rest fun i => o (i + 1)).1,
         (check_and_execute_schedules t h rest fun i => o (i + 1)).2.1,
         (check_and_execute_schedules t h rest fun i => o (i + 1)).2.2 + 1) := by
  simp [check_and_execute_schedules, hdue, hnd, hfail]

/-- Witness for C7: schedule 1's call fails at Monday 08:00:15, schedule 2
(same nominal time) is still evaluated, dispatches on the second actuator
call and is logged. -/
theorem C7_witness :
    check_and_execute_schedules 374415 []
        [⟨1, 8, 0, 1, ["Monday"]⟩, ⟨2, 8, 0, 2, ["Monday"]⟩]
        (fun i => decide (i = 1))
      = (true, log_feeding 2 "Scheduled" (some 2) 374415 [], 2) := by
  rw [C7_failure_continues_tick ⟨1, 8, 0, 1, ["Monday"]⟩
    [⟨2, 8, 0, 2, ["Monday"]⟩] 374415 [] (fun i => decide (i = 1))
    (by decide) (by decide) (by decide)]
  decide

/-- C8: the manual-dispatch operation bypasses the matcher and the dedup
guard: whatever the history, each call makes exactly one actuator call and
appends exactly one event with the manual trigger kind and a null
schedule id, so n manual calls grow the history by exactly n events and are
never suppressed. -/
theorem C8_manual_never_suppressed (portion : Rat) (now : Nat)
    (oracle : Nat → Bool) :
    (∀ history, dispatch_manual portion now history oracle
        = (oracle 0, log_feeding portion "Manual" none now history, 1)) ∧
    ∀ n history,
      (dispatch_manualN portion now oracle n history).length
        = n + history.length := by
  refine ⟨fun _ => rfl, ?_⟩
  intro n
  induction n with
  | zero => intro history; simp [dispatch_manualN]
  | succ k ih =>
    intro history
    rw [dispatch_manualN, ih]
    simp [dispatch_manual, log_feeding]
    omega

/-- C9: the head schedule being due, unsuppressed, and successfully
dispatched ends the tick at once — the remaining schedules are not
evaluated, the result is independent of them, and exactly one actuator call
and one append happen; moreover every tick whatsoever appends at most one
event to the history. -/
theorem C9_at_most_one_dispatch_per_tick (s : Schedule)
    (rest : List Schedule) (t : Nat) (h : List Event) (o : Nat → Bool)
    (hdue : is_due s t = true) (hnd : already_dispensed s t h = false)
    (hsucc : o 0 = true) :
    check_and_execute_schedules t h (s :: rest) o
      = (true, log_feeding s.portion "Scheduled" (some s.id) t h, 1) ∧
    ∀ (ss : List Schedule) (t2 : Nat) (h2 : List Event) (o2 : Nat → Bool),
      (check_and_execute_schedules t2 h2 ss o2).2.1 = h2 ∨
      ∃ e, (check_and_execute_schedules t2 h2 ss o2).2.1 = e :: h2 := by
  refine ⟨tick_dispatch hdue hnd hsucc, ?_⟩
  intro ss t2 h2
  induction ss with
  | nil => intro o2; left; rfl
  | cons s2 rest2 ih =>
    intro o2
    rw [check_and_execute_schedules]
    by_cases hc : (is_due s2 t2 && !already_dispensed s2 t2 h2) = true
    · rw [if_pos hc]
      by_cases ho : o2 0 = true
      · rw [if_pos ho]
        right
        exact ⟨_, rfl⟩
      · rw [if_neg ho]
        exact ih fun i => o2 (i + 1)
    · rw [if_neg hc]
      exact ih o2

/-- Witness for C9: two schedules both due at Monday 08:00:15 with an always
succeeding actuator; only the first is dispatched and logged, with one call. -/
theorem C9_witness :
    check_and_execute_schedules 374415 []
        [⟨1, 8, 0, 1, ["Monday"]⟩, ⟨2, 8, 0, 2, ["Monday"]⟩]
        (fun _ => true)
      = (true, log_feeding 1 "Scheduled" (some 1) 374415 [], 1) :=
  (C9_at_most_one_dispatch_per_tick ⟨1, 8, 0, 1, ["Monday"]⟩
      [⟨2, 8, 0, 2, ["Monday"]⟩] 374415 [] (fun _ => true) (by decide)
      (by decide) rfl).1

/-- C10: the duplicate-suppression check looks only at the 10 most recent
history entries and fires exactly when one of them matches the schedule id
with `fed_at` less than 120 seconds before `now`.  Consequently (third
conjunct) a same-date success 200 seconds old — schedule 1's success at
Monday 07:56:40, evaluated at the due instant Monday 08:00:00 — does not
suppress and the same occurrence is dispatched and logged again; and (fourth
conjunct) a success 30 seconds old buried under 10 more recent manual
entries does not suppress either. -/
theorem C10_dedup_lookback (s : Schedule) (now : Nat) (h : List Event) :
    already_dispensed s now h
      = already_dispensed s now (get_feeding_history h 10) ∧
    (already_dispensed s now h = true ↔
      ∃ e ∈ h.take 10,
        (now : Int) - (e.fed_at : Int) < 120 ∧ e.schedule_id = some s.id) ∧
    (dateOf 374200 = dateOf 374400 ∧
      check_and_execute_schedules 374400 [⟨1, "Scheduled", some 1, 374200⟩]
          [⟨1, 8, 0, 1, ["Monday"]⟩] (fun _ => true)
        = (true, log_feeding 1 "Scheduled" (some 1) 374400
            [⟨1, "Scheduled", some 1, 374200⟩], 1)) ∧
    already_dispensed ⟨1, 8, 0, 1, ["Monday"]⟩ 374445
      (List.replicate 10 ⟨1, "Manual", none, 374440⟩
        ++ [⟨1, "Scheduled", some 1, 374415⟩]) = false := by
  refine ⟨?_, ?_, by decide, by decide⟩
  · simp [already_dispensed, get_feeding_history, List.take_take]
  · simp [already_dispensed, get_feeding_history, List.any_eq_true]

end PetFeeder
